import Mathlib

/-!
Verification development for a small weather pass-through service.

The service accepts a city name, calls a provider geocoding endpoint to
resolve coordinates, calls the provider current-conditions endpoint with
those coordinates, and projects four fields into a response DTO.

The embedding below translates the Python source:
  - appsettings.py            → AppSettings
  - clients/weatherClient.py  → OpenWeatherClient.get_coordinates / get_weather
  - services/weatherservices.py → WeatherService.construct / get_weather
  - DTOs/weatherDtos.py       → WeatherResponseDTO

Decoded JSON bodies are modelled by an inductive Json type; JSON numbers
are modelled by rationals (the code performs no arithmetic on them, only
pass-through, so exact values are faithful).  Python exceptions are
modelled by an explicit Fault type: each HTTPException raise site of the
source gets its own constructor carrying the status code and detail
string of that site, and generic Python faults (TypeError, KeyError,
IndexError) are modelled as unclassified faults.  The HTTP layer is
modelled as a deterministic test double (Network) mapping request
arguments to responses, and every operation returns the list of outbound
calls it performed, so "the conditions call is never made" is a statement
about the returned trace.
-/

set_option autoImplicit false

namespace ApiClima

/-- A decoded JSON value, as produced by response.json(). -/
inductive Json where
  | null
  | bool (b : Bool)
  | num (q : Rat)
  | str (s : String)
  | arr (xs : List Json)
  | obj (kvs : List (String × Json))

/--
Faults raised by the code.  The first three constructors correspond to
the three HTTPException raise sites of the source (carrying the status
code and detail string used there); unclassified covers generic Python
exceptions (TypeError, KeyError, IndexError) that are not HTTPExceptions.
-/
inductive Fault where
  | upstream (status_code : Nat) (detail : String)
  | notFound (status_code : Nat) (detail : String)
  | config (status_code : Nat) (detail : String)
  | unclassified (msg : String)

/-- Python truthiness of a decoded JSON value (bool(data)). -/
def Json.truthy : Json → Bool
  | .null => false
  | .bool b => b
  | .num q => !(q == 0)
  | .str s => !s.isEmpty
  | .arr xs => !xs.isEmpty
  | .obj kvs => !kvs.isEmpty

/-- First binding of a key in a JSON object, as dict lookup. -/
def lookupKey : List (String × Json) → String → Option Json
  | [], _ => none
  | (k, v) :: rest, key => if k = key then some v else lookupKey rest key

/-- Python subscript j[k] with a string key k. -/
def Json.getKey (j : Json) (k : String) : Except Fault Json :=
  match j with
  | .obj kvs =>
    match lookupKey kvs k with
    | some v => .ok v
    | none => .error (.unclassified ("KeyError: " ++ k))
  | _ => .error (.unclassified ("TypeError: value not subscriptable by key " ++ k))

/-- Python subscript j[i] with a natural-number index i. -/
def Json.indexNat (j : Json) (i : Nat) : Except Fault Json :=
  match j with
  | .arr xs =>
    match xs.get? i with
    | some v => .ok v
    | none => .error (.unclassified "IndexError: list index out of range")
  | .str s =>
    match s.data.get? i with
    | some c => .ok (.str (String.mk [c]))
    | none => .error (.unclassified "IndexError: string index out of range")
  | .obj _ => .error (.unclassified "KeyError: integer key absent from object")
  | _ => .error (.unclassified "TypeError: object is not subscriptable")

/-- An upstream HTTP response: status code plus decoded JSON body. -/
structure HttpResponse where
  status_code : Nat
  body : Json

/--
Deterministic test double for the provider: the geocoding response as a
function of the queried place name, and the conditions response as a
function of the lat/lon arguments passed (the code passes the extracted
JSON values through unchecked, so the arguments are Json values).
-/
structure Network where
  geocode : String → HttpResponse
  conditions : Json → Json → HttpResponse

/-- One outbound HTTP call, recorded with the arguments it carried. -/
inductive Call where
  | geo (q : String)
  | cond (lat lon : Json)

/-- Process configuration from appsettings.py; os.getenv yields Option. -/
structure AppSettings where
  OPENWEATHER_API_KEY : Option String
  GEOCODING_URL : Option String
  WEATHER_URL : Option String
  TIMEOUT_SECONDS : Nat
  UNITS : String
  LANGUAGE : String

/-- Detail string of the geocoding non-200 HTTPException. -/
def geoUpstreamDetail : String :=
  "Error al obtener coordenadas desde la API de OpenWeather"

/-- Detail string of the conditions non-200 HTTPException. -/
def condUpstreamDetail : String :=
  "Error al obtener datos meteorológicos desde la API de OpenWeather"

/-- Detail string of the empty-geocoding-result HTTPException(404). -/
def notFoundDetail (city : String) : String :=
  "Ciudad '" ++ city ++ "' no encontrada. Verifica el nombre e intenta de nuevo."

/-- Detail string of the missing-credential HTTPException(500). -/
def configDetail : String :=
  "OPENWEATHER_API_KEY no está configurado. Por favor, configura esta variable en el archivo .env"

/-- Fault raised by httpx when the configured URL is None. -/
def invalidUrlMsg : String := "TypeError: request URL is None"

/-- Python str.strip(): drop leading and trailing whitespace characters. -/
def pyStrip (s : String) : String :=
  String.mk (((s.data.dropWhile Char.isWhitespace).reverse.dropWhile Char.isWhitespace).reverse)

/-- Coordinate extraction: lat = data[0]["lat"]; lon = data[0]["lon"]. -/
def extractCoords (data : Json) : Except Fault (Json × Json) :=
  match data.indexNat 0 with
  | .error e => .error e
  | .ok first =>
    match first.getKey "lat" with
    | .error e => .error e
    | .ok lat =>
      match first.getKey "lon" with
      | .error e => .error e
      | .ok lon => .ok (lat, lon)

namespace OpenWeatherClient

/--
OpenWeatherClient.get_coordinates: GET the geocoding endpoint with the
city; non-200 raises HTTPException with that status; a 200 whose decoded
body is falsy raises HTTPException(404); otherwise the first entry's lat
and lon are extracted (unguarded subscripts).  Returns the outcome and
the list of outbound calls performed.
-/
def get_coordinates (cfg : AppSettings) (net : Network) (city : String) :
    Except Fault (Json × Json) × List Call :=
  match cfg.GEOCODING_URL with
  | none => (.error (.unclassified invalidUrlMsg), [])
  | some _ =>
    let response := net.geocode city
    if response.status_code ≠ 200 then
      (.error (.upstream response.status_code geoUpstreamDetail), [Call.geo city])
    else if response.body.truthy = false then
      (.error (.notFound 404 (notFoundDetail city)), [Call.geo city])
    else
      match extractCoords response.body with
      | .error e => (.error e, [Call.geo city])
      | .ok coords => (.ok coords, [Call.geo city])

/--
OpenWeatherClient.get_weather: GET the conditions endpoint with the
lat/lon; non-200 raises HTTPException with that status; otherwise the
full decoded body is returned.
-/
def get_weather (cfg : AppSettings) (net : Network) (lat lon : Json) :
    Except Fault Json × List Call :=
  match cfg.WEATHER_URL with
  | none => (.error (.unclassified invalidUrlMsg), [])
  | some _ =>
    let response := net.conditions lat lon
    if response.status_code ≠ 200 then
      (.error (.upstream response.status_code condUpstreamDetail), [Call.cond lat lon])
    else
      (.ok response.body, [Call.cond lat lon])

end OpenWeatherClient

/-- WeatherResponseDTO from DTOs/weatherDtos.py; the three projected
fields are the JSON values passed through by the service. -/
structure WeatherResponseDTO where
  city : String
  temperature : Json
  humidity : Json
  description : Json

/-- The service; it reads the process-wide AppSettings, carried here as a
field so the embedding is explicit about the configuration in scope. -/
structure WeatherService where
  cfg : AppSettings

namespace WeatherService

/--
WeatherService.__init__: if the credential is falsy (absent or the empty
string) raise HTTPException(500); otherwise construction succeeds.  No
outbound call is made, hence the empty trace.
-/
def construct (cfg : AppSettings) : Except Fault WeatherService × List Call :=
  match cfg.OPENWEATHER_API_KEY with
  | none => (.error (.config 500 configDetail), [])
  | some s =>
    if s.isEmpty then (.error (.config 500 configDetail), [])
    else (.ok ⟨cfg⟩, [])

/--
The DTO projection of WeatherService.get_weather step 4:
temperature = weather_data["main"]["temp"],
humidity = weather_data["main"]["humidity"],
description = weather_data["weather"][0]["description"],
in Python's left-to-right evaluation order (the source subscripts
weather_data["main"] twice; the lookups are pure so one binding suffices).
-/
def project (city : String) (weather_data : Json) : Except Fault WeatherResponseDTO :=
  match weather_data.getKey "main" with
  | .error e => .error e
  | .ok mainSec =>
    match mainSec.getKey "temp" with
    | .error e => .error e
    | .ok temp =>
      match mainSec.getKey "humidity" with
      | .error e => .error e
      | .ok humidity =>
        match weather_data.getKey "weather" with
        | .error e => .error e
        | .ok weatherList =>
          match weatherList.indexNat 0 with
          | .error e => .error e
          | .ok first =>
            match first.getKey "description" with
            | .error e => .error e
            | .ok description =>
              .ok ⟨city, temp, humidity, description⟩

/--
WeatherService.get_weather: strip the city, resolve coordinates, fetch
conditions, project the payload.  Failures of either client call
propagate unchanged; the returned trace concatenates the calls made.
-/
def get_weather (svc : WeatherService) (net : Network) (city0 : String) :
    Except Fault WeatherResponseDTO × List Call :=
  let city := pyStrip city0
  match OpenWeatherClient.get_coordinates svc.cfg net city with
  | (.error e, calls) => (.error e, calls)
  | (.ok (lat, lon), calls1) =>
    match OpenWeatherClient.get_weather svc.cfg net lat lon with
    | (.error e, calls2) => (.error e, calls1 ++ calls2)
    | (.ok weather_data, calls2) =>
      match project city weather_data with
      | .error e => (.error e, calls1 ++ calls2)
      | .ok dto => (.ok dto, calls1 ++ calls2)

end WeatherService

/-- A configuration with every field present, as in a working deployment. -/
def goodCfg : AppSettings :=
  { OPENWEATHER_API_KEY := some "test-key"
    GEOCODING_URL := some "http://api.openweathermap.org/geo/1.0/direct"
    WEATHER_URL := some "http://api.openweathermap.org/data/2.5/weather"
    TIMEOUT_SECONDS := 10
    UNITS := "metric"
    LANGUAGE := "es" }

/-- The conditions payload of the end-to-end example. -/
def bogotaPayload : Json :=
  Json.obj
    [("main", Json.obj [("temp", Json.num 18.5), ("humidity", Json.num 72)]),
     ("weather", Json.arr [Json.obj [("description", Json.str "nubes dispersas")]])]

/-- Test double of the end-to-end example: one geocoding match for any
query, and the example conditions payload for any coordinates. -/
def bogotaNet : Network :=
  { geocode := fun _ =>
      ⟨200, Json.arr [Json.obj [("lat", Json.num 4.61), ("lon", Json.num (-74.08))]]⟩
    conditions := fun _ _ => ⟨200, bogotaPayload⟩ }

/-- The expected report of the end-to-end example. -/
def bogotaReport : WeatherResponseDTO :=
  ⟨"Bogota", Json.num 18.5, Json.num 72, Json.str "nubes dispersas"⟩

/-- Every error of Json.getKey is an unclassified fault. -/
theorem getKey_error_unclassified (j : Json) (k : String) (f : Fault)
    (h : j.getKey k = Except.error f) : ∃ m, f = Fault.unclassified m := by
  unfold Json.getKey at h
  repeat' split at h
  all_goals cases h
  all_goals exact ⟨_, rfl⟩

/-- Every error of Json.indexNat is an unclassified fault. -/
theorem indexNat_error_unclassified (j : Json) (i : Nat) (f : Fault)
    (h : j.indexNat i = Except.error f) : ∃ m, f = Fault.unclassified m := by
  unfold Json.indexNat at h
  repeat' split at h
  all_goals cases h
  all_goals exact ⟨_, rfl⟩

/-- Every error of the coordinate extraction is an unclassified fault. -/
theorem extractCoords_error_unclassified (data : Json) (f : Fault)
    (h : extractCoords data = Except.error f) : ∃ m, f = Fault.unclassified m := by
  unfold extractCoords at h
  split at h
  · rename_i e he
    cases h
    exact indexNat_error_unclassified _ _ _ he
  · rename_i first hfirst
    split at h
    · rename_i e he
      cases h
      exact getKey_error_unclassified _ _ _ he
    · rename_i lat hlat
      split at h
      · rename_i e he
        cases h
        exact getKey_error_unclassified _ _ _ he
      · exact absurd h (by simp)

/-- A successful projection carries the city it was given. -/
theorem project_city_eq (c : String) (wd : Json) (d : WeatherResponseDTO)
    (h : WeatherService.project c wd = Except.ok d) : d.city = c := by
  unfold WeatherService.project at h
  repeat' split at h
  all_goals cases h
  rfl

/-- C1: whenever WeatherService.get_weather succeeds — in particular for
every place name whose geocoding call succeeds with at least one match
and whose conditions call succeeds with a well-formed payload — the city
field of the returned report equals the input with leading and trailing
whitespace stripped, with no casing normalization applied. -/
theorem C1_city_is_stripped_input (svc : WeatherService) (net : Network) (city : String)
    (dto : WeatherResponseDTO)
    (h : (WeatherService.get_weather svc net city).1 = Except.ok dto) :
    dto.city = pyStrip city := by
  simp only [WeatherService.get_weather] at h
  split at h
  · simp at h
  · split at h
    · simp at h
    · rename_i wd calls2 heq2
      split at h
      · simp at h
      · rename_i dto2 heqp
        simp at h
        exact h ▸ project_city_eq _ _ _ heqp

/-- Closed instance of C1 at input " Bogota ": the returned report's
city field is "Bogota", the stripped input. -/
theorem C1_witness : bogotaReport.city = pyStrip " Bogota " :=
  C1_city_is_stripped_input ⟨goodCfg⟩ bogotaNet " Bogota " bogotaReport rfl

/-- C7: end-to-end example — place name "Bogota", one geocoding match
(4.61, -74.08), conditions payload with main.temp 18.5, main.humidity 72
and weather[0].description "nubes dispersas" — yields exactly the report
(city "Bogota", temperature 18.5, humidity 72, description
"nubes dispersas"): temperature from main.temp, humidity from
main.humidity unclamped, description from the first weather entry. -/
theorem C7_end_to_end :
    (WeatherService.get_weather ⟨goodCfg⟩ bogotaNet "Bogota").1 = Except.ok bogotaReport ∧
    bogotaReport =
      ⟨"Bogota", Json.num 18.5, Json.num 72, Json.str "nubes dispersas"⟩ :=
  ⟨rfl, rfl⟩

/-- C5: constructing the service while the provider credential is absent
or empty fails immediately with the configuration HTTPException(500) and
performs no outbound call (empty trace); with a non-empty credential
present, construction succeeds. -/
theorem C5_construction_requires_credential (cfg : AppSettings) :
    ((cfg.OPENWEATHER_API_KEY = none ∨ cfg.OPENWEATHER_API_KEY = some "") →
        WeatherService.construct cfg = (Except.error (Fault.config 500 configDetail), []))
    ∧ (∀ k, cfg.OPENWEATHER_API_KEY = some k → k ≠ "" →
        WeatherService.construct cfg = (Except.ok ⟨cfg⟩, [])) := by
  constructor
  · rintro (h | h) <;> simp [WeatherService.construct, h, String.isEmpty_iff]
  · intro k hk hne
    simp [WeatherService.construct, hk, String.isEmpty_iff, hne]

/-- Closed instance of C5: an all-absent configuration is refused with
the configuration failure, and the fully configured one is accepted. -/
theorem C5_witness :
    WeatherService.construct
        { OPENWEATHER_API_KEY := none, GEOCODING_URL := none, WEATHER_URL := none,
          TIMEOUT_SECONDS := 10, UNITS := "metric", LANGUAGE := "es" }
      = (Except.error (Fault.config 500 configDetail), [])
    ∧ WeatherService.construct goodCfg = (Except.ok ⟨goodCfg⟩, []) :=
  ⟨(C5_construction_requires_credential _).1 (Or.inl rfl),
   (C5_construction_requires_credential goodCfg).2 "test-key" rfl (by simp)⟩

/-- A configuration whose credential is set but whose endpoint addresses
are both absent. -/
def noUrlCfg : AppSettings :=
  { OPENWEATHER_API_KEY := some "test-key"
    GEOCODING_URL := none
    WEATHER_URL := none
    TIMEOUT_SECONDS := 10
    UNITS := "metric"
    LANGUAGE := "es" }

/-- C9: construction validates only the credential: with the credential
set, construction succeeds even when GEOCODING_URL or WEATHER_URL is
absent, and the missing endpoint surfaces only during a request, as an
unclassified fault (the TypeError httpx raises for a None URL), never as
a configuration failure. -/
theorem C9_urls_not_validated (cfg : AppSettings) (k : String)
    (hk : cfg.OPENWEATHER_API_KEY = some k) (hne : k ≠ "") :
    WeatherService.construct cfg = (Except.ok ⟨cfg⟩, [])
    ∧ (cfg.GEOCODING_URL = none → ∀ net city,
        WeatherService.get_weather ⟨cfg⟩ net city
          = (Except.error (Fault.unclassified invalidUrlMsg), []))
    ∧ (cfg.WEATHER_URL = none → ∀ (net : Network) (city : String)
          (e : Json) (rest : List Json) (la lo : Json),
        net.geocode (pyStrip city) = ⟨200, Json.arr (e :: rest)⟩ →
        e.getKey "lat" = Except.ok la → e.getKey "lon" = Except.ok lo →
        (WeatherService.get_weather ⟨cfg⟩ net city).1
          = Except.error (Fault.unclassified invalidUrlMsg)) := by
  refine ⟨by simp [WeatherService.construct, hk, String.isEmpty_iff, hne], ?_, ?_⟩
  · intro hg net city
    simp [WeatherService.get_weather, OpenWeatherClient.get_coordinates, hg]
  · intro hwu net city e rest la lo hresp hla hlo
    cases hgu : cfg.GEOCODING_URL with
    | none =>
      simp [WeatherService.get_weather, OpenWeatherClient.get_coordinates, hgu]
    | some u =>
      simp [WeatherService.get_weather, OpenWeatherClient.get_coordinates,
            OpenWeatherClient.get_weather, hgu, hwu, hresp, extractCoords,
            Json.indexNat, Json.truthy, hla, hlo]

/-- Closed instance of C9: with the credential set and both endpoint
addresses absent, construction succeeds and a request fails with the
unclassified None-URL fault. -/
theorem C9_witness :
    WeatherService.construct noUrlCfg = (Except.ok ⟨noUrlCfg⟩, [])
    ∧ WeatherService.get_weather ⟨noUrlCfg⟩ bogotaNet "Bogota"
        = (Except.error (Fault.unclassified invalidUrlMsg), []) :=
  ⟨(C9_urls_not_validated noUrlCfg "test-key" rfl (by simp)).1,
   (C9_urls_not_validated noUrlCfg "test-key" rfl (by simp)).2.1 rfl bogotaNet "Bogota"⟩

/-- C8: the not-found check is Python truthiness on the decoded 200 body:
every falsy body — the empty list, and likewise null, the empty object,
the number 0, and false — is answered with the not-found
HTTPException(404), not only the empty result list. -/
theorem C8_falsy_body_not_found (cfg : AppSettings) (net : Network) (city u : String)
    (hu : cfg.GEOCODING_URL = some u)
    (hs : (net.geocode city).status_code = 200)
    (hb : (net.geocode city).body.truthy = false) :
    OpenWeatherClient.get_coordinates cfg net city
      = (Except.error (Fault.notFound 404 (notFoundDetail city)), [Call.geo city])
    ∧ Json.null.truthy = false
    ∧ (Json.arr []).truthy = false
    ∧ (Json.obj []).truthy = false
    ∧ (Json.num 0).truthy = false
    ∧ (Json.bool false).truthy = false := by
  refine ⟨?_, rfl, rfl, rfl, by decide, rfl⟩
  simp [OpenWeatherClient.get_coordinates, hu, hs, hb]

/-- A double whose geocoding answer is 200 with a null (falsy) body. -/
def nullBodyNet : Network :=
  { geocode := fun _ => ⟨200, Json.null⟩, conditions := fun _ _ => ⟨200, Json.null⟩ }

/-- Closed instance of C8 at the falsy body null: the geocoding call
fails as not-found 404. -/
theorem C8_witness :
    OpenWeatherClient.get_coordinates goodCfg nullBodyNet "Nusquam"
      = (Except.error (Fault.notFound 404 (notFoundDetail "Nusquam")), [Call.geo "Nusquam"]) :=
  (C8_falsy_body_not_found goodCfg nullBodyNet "Nusquam" _ rfl rfl rfl).1

/-- C10: on a 200 geocoding response whose body is truthy but whose
unguarded coordinate extraction fails — the first entry lacks "lat" or
"lon", or the body or entry is not subscriptable — get_coordinates
propagates the raw unclassified lookup/type fault, not a classified
not-found or upstream failure. -/
theorem C10_extraction_fault_unclassified (cfg : AppSettings) (net : Network)
    (city u : String) (f : Fault)
    (hu : cfg.GEOCODING_URL = some u)
    (hs : (net.geocode city).status_code = 200)
    (ht : (net.geocode city).body.truthy = true)
    (he : extractCoords (net.geocode city).body = Except.error f) :
    OpenWeatherClient.get_coordinates cfg net city = (Except.error f, [Call.geo city])
    ∧ (∀ t d, f ≠ Fault.upstream t d)
    ∧ (∀ t d, f ≠ Fault.notFound t d) := by
  obtain ⟨m, hm⟩ := extractCoords_error_unclassified _ _ he
  subst hm
  refine ⟨?_, fun t d h => Fault.noConfusion h, fun t d h => Fault.noConfusion h⟩
  simp [OpenWeatherClient.get_coordinates, hu, hs, ht, he]

/-- A double whose single geocoding match has no "lat" or "lon" key. -/
def noLatNet : Network :=
  { geocode := fun _ => ⟨200, Json.arr [Json.obj [("nombre", Json.str "x")]]⟩
    conditions := fun _ _ => ⟨200, Json.null⟩ }

/-- Closed instance of C10: a single geocoding match without a "lat" key
makes the call fail with the raw KeyError fault. -/
theorem C10_witness :
    OpenWeatherClient.get_coordinates goodCfg noLatNet "Bogota"
      = (Except.error (Fault.unclassified "KeyError: lat"), [Call.geo "Bogota"]) :=
  (C10_extraction_fault_unclassified goodCfg noLatNet "Bogota" _ _ rfl rfl rfl rfl).1

/-- C2 as stated is false: a geocoding response with the 2xx status 201
and an empty result list is classified by the code as an upstream error
carrying 201 — the not-found 404 branch requires status exactly 200. -/
theorem C2_counterexample :
    (WeatherService.get_weather ⟨goodCfg⟩
        { geocode := fun _ => ⟨201, Json.arr []⟩, conditions := fun _ _ => ⟨200, Json.null⟩ }
        "Bogota").1
      = Except.error (Fault.upstream 201 geoUpstreamDetail)
    ∧ 200 ≤ 201 ∧ 201 < 300 ∧ 201 ≠ 404 :=
  ⟨rfl, by decide, by decide, by decide⟩

/-- C2 amended: for every place name whose geocoding call returns status
exactly 200 with an empty result list, get_weather fails with the
not-found HTTPException(404) and the conditions call is never made — the
trace holds only the geocoding call. -/
theorem C2_empty_list_not_found (svc : WeatherService) (net : Network) (city u : String)
    (hu : svc.cfg.GEOCODING_URL = some u)
    (hs : (net.geocode (pyStrip city)).status_code = 200)
    (hb : (net.geocode (pyStrip city)).body = Json.arr []) :
    WeatherService.get_weather svc net city
      = (Except.error (Fault.notFound 404 (notFoundDetail (pyStrip city))),
         [Call.geo (pyStrip city)]) := by
  simp [WeatherService.get_weather, OpenWeatherClient.get_coordinates,
        hu, hs, hb, Json.truthy]

/-- Closed instance of amended C2: a 200 response with an empty list
yields not-found 404 and a trace with no conditions call. -/
theorem C2_witness :
    WeatherService.get_weather ⟨goodCfg⟩
        { geocode := fun _ => ⟨200, Json.arr []⟩, conditions := fun _ _ => ⟨200, Json.null⟩ }
        "Nusquam"
      = (Except.error (Fault.notFound 404 (notFoundDetail "Nusquam")), [Call.geo "Nusquam"]) :=
  C2_empty_list_not_found ⟨goodCfg⟩
    { geocode := fun _ => ⟨200, Json.arr []⟩, conditions := fun _ _ => ⟨200, Json.null⟩ }
    "Nusquam" _ rfl rfl rfl

/-- Every error of the DTO projection is an unclassified fault. -/
theorem project_error_unclassified (c : String) (wd : Json) (f : Fault)
    (h : WeatherService.project c wd = Except.error f) :
    ∃ m, f = Fault.unclassified m := by
  unfold WeatherService.project at h
  split at h
  · rename_i e he
    cases h
    exact getKey_error_unclassified _ _ _ he
  · rename_i m1 h1
    split at h
    · rename_i e he
      cases h
      exact getKey_error_unclassified _ _ _ he
    · rename_i t ht
      split at h
      · rename_i e he
        cases h
        exact getKey_error_unclassified _ _ _ he
      · rename_i hum hh
        split at h
        · rename_i e he
          cases h
          exact getKey_error_unclassified _ _ _ he
        · rename_i wl hw
          split at h
          · rename_i e he
            cases h
            exact indexNat_error_unclassified _ _ _ he
          · rename_i fst hf
            split at h
            · rename_i e he
              cases h
              exact getKey_error_unclassified _ _ _ he
            · exact absurd h (by simp)

/-- C3 as stated is false in its converse half: a geocoding response with
the 2xx status 202 (body irrelevant) still takes the upstream-error
branch, because the code tests status ≠ 200, not "non-2xx". -/
theorem C3_counterexample :
    (WeatherService.get_weather ⟨goodCfg⟩
        { geocode := fun _ =>
            ⟨202, Json.arr [Json.obj [("lat", Json.num 1), ("lon", Json.num 2)]]⟩
          conditions := fun _ _ => ⟨200, bogotaPayload⟩ }
        "Bogota").1
      = Except.error (Fault.upstream 202 geoUpstreamDetail)
    ∧ 200 ≤ 202 ∧ 202 < 300 :=
  ⟨rfl, by decide, by decide⟩

/-- On a status-200 geocoding response, get_coordinates reduces to the
truthiness test on the body followed by the unguarded extraction, with a
trace of exactly the one geocoding call. -/
theorem get_coordinates_200 (cfg : AppSettings) (net : Network) (city u : String)
    (hu : cfg.GEOCODING_URL = some u)
    (hs : (net.geocode city).status_code = 200) :
    OpenWeatherClient.get_coordinates cfg net city
      = (if (net.geocode city).body.truthy = false
           then Except.error (Fault.notFound 404 (notFoundDetail city))
           else extractCoords (net.geocode city).body,
         [Call.geo city]) := by
  simp only [OpenWeatherClient.get_coordinates, hu, hs, ne_eq, not_true_eq_false,
    if_false, reduceIte]
  split
  · rfl
  · cases hE : extractCoords (net.geocode city).body <;> simp [hE]

/-- C3 amended: the geocoding success test is status = 200, not "any
2xx".  For every geocoding response with status s ≠ 200, get_weather
fails with the upstream-error HTTPException carrying exactly s and the
conditions call is never attempted; and on a status-200 geocoding
response, the geocoding upstream-error branch is never the outcome. -/
theorem C3_geocoding_non200_upstream (svc : WeatherService) (net : Network)
    (city u : String) (s : Nat)
    (hu : svc.cfg.GEOCODING_URL = some u)
    (hs : (net.geocode (pyStrip city)).status_code = s) :
    (s ≠ 200 →
      WeatherService.get_weather svc net city
        = (Except.error (Fault.upstream s geoUpstreamDetail), [Call.geo (pyStrip city)]))
    ∧ (s = 200 → ∀ t,
      (WeatherService.get_weather svc net city).1
        ≠ Except.error (Fault.upstream t geoUpstreamDetail)) := by
  constructor
  · intro hne
    simp [WeatherService.get_weather, OpenWeatherClient.get_coordinates, hu, hs, hne]
  · intro h200 t hcontra
    subst h200
    simp only [WeatherService.get_weather,
      get_coordinates_200 svc.cfg net (pyStrip city) u hu hs] at hcontra
    split at hcontra
    · -- failing geocoding step: the fault is notFound or unclassified
      rename_i e calls heq
      simp only [] at hcontra
      simp at hcontra
      rw [Prod.mk.injEq] at heq
      obtain ⟨h1, h2⟩ := heq
      by_cases htr : (net.geocode (pyStrip city)).body.truthy = false
      · rw [if_pos htr] at h1
        cases h1
        exact Fault.noConfusion hcontra
      · rw [if_neg htr] at h1
        obtain ⟨m, hm⟩ := extractCoords_error_unclassified _ _ h1
        rw [hm] at hcontra
        exact Fault.noConfusion hcontra
    · -- successful geocoding step: downstream faults never carry the
      -- geocoding upstream detail
      rename_i lat lon calls1 heq
      rcases hW : OpenWeatherClient.get_weather svc.cfg net lat lon with ⟨res2, calls2⟩
      rw [hW] at hcontra
      rcases res2 with f2 | wd
      · simp at hcontra
        subst hcontra
        simp only [OpenWeatherClient.get_weather] at hW
        split at hW
        · rw [Prod.mk.injEq] at hW
          exact absurd hW.1 (by simp [invalidUrlMsg, geoUpstreamDetail])
        · split at hW
          · rw [Prod.mk.injEq] at hW
            have h1 := hW.1
            injection h1 with h2
            injection h2 with h3 h4
            exact absurd h4 (by decide)
          · rw [Prod.mk.injEq] at hW
            exact absurd hW.1 (by simp)
      · rcases hp : WeatherService.project (pyStrip city) wd with f3 | dto
        · simp [hp] at hcontra
          obtain ⟨m, hm⟩ := project_error_unclassified _ _ _ hp
          rw [hm] at hcontra
          exact Fault.noConfusion hcontra
        · simp [hp] at hcontra

/-- Closed instance of amended C3 at status 503: the failure carries 503
and the trace has no conditions call. -/
theorem C3_witness :
    WeatherService.get_weather ⟨goodCfg⟩
        { geocode := fun _ => ⟨503, Json.null⟩, conditions := fun _ _ => ⟨200, Json.null⟩ }
        "Bogota"
      = (Except.error (Fault.upstream 503 geoUpstreamDetail), [Call.geo "Bogota"]) :=
  (C3_geocoding_non200_upstream ⟨goodCfg⟩
    { geocode := fun _ => ⟨503, Json.null⟩, conditions := fun _ _ => ⟨200, Json.null⟩ }
    "Bogota" _ 503 rfl rfl).1 (by decide)

/-- C4: when the geocoding call succeeds with at least one match and the
conditions call returns a non-2xx status s, get_weather fails with the
upstream-error HTTPException carrying exactly s, unchanged by the service
— the trace shows the single conditions call, so no retry or remapping
happened. -/
theorem C4_conditions_non2xx_upstream (svc : WeatherService) (net : Network)
    (city u w : String) (e : Json) (rest : List Json) (la lo : Json) (s : Nat) (b : Json)
    (hu : svc.cfg.GEOCODING_URL = some u) (hw : svc.cfg.WEATHER_URL = some w)
    (hg : net.geocode (pyStrip city) = ⟨200, Json.arr (e :: rest)⟩)
    (hla : e.getKey "lat" = Except.ok la) (hlo : e.getKey "lon" = Except.ok lo)
    (hc : net.conditions la lo = ⟨s, b⟩)
    (hs : ¬(200 ≤ s ∧ s < 300)) :
    WeatherService.get_weather svc net city
      = (Except.error (Fault.upstream s condUpstreamDetail),
         [Call.geo (pyStrip city), Call.cond la lo]) := by
  have hs200 : s ≠ 200 := by
    rintro rfl
    exact hs (by norm_num)
  simp [WeatherService.get_weather, OpenWeatherClient.get_coordinates,
        OpenWeatherClient.get_weather, hu, hw, hg, hc, extractCoords,
        Json.indexNat, Json.truthy, hla, hlo, hs200]

/-- A double with one well-formed geocoding match and a failing (503)
conditions endpoint. -/
def cond503Net : Network :=
  { geocode := fun _ =>
      ⟨200, Json.arr [Json.obj [("lat", Json.num 4.61), ("lon", Json.num (-74.08))]]⟩
    conditions := fun _ _ => ⟨503, Json.null⟩ }

/-- Closed instance of C4: a 503 conditions response surfaces as an
upstream error carrying 503, after one geocoding and one conditions call. -/
theorem C4_witness :
    WeatherService.get_weather ⟨goodCfg⟩ cond503Net "Bogota"
      = (Except.error (Fault.upstream 503 condUpstreamDetail),
         [Call.geo "Bogota", Call.cond (Json.num 4.61) (Json.num (-74.08))]) :=
  C4_conditions_non2xx_upstream ⟨goodCfg⟩ cond503Net "Bogota" _ _
    (Json.obj [("lat", Json.num 4.61), ("lon", Json.num (-74.08))]) []
    (Json.num 4.61) (Json.num (-74.08)) 503 Json.null
    rfl rfl rfl rfl rfl rfl (by decide)

/-- With the conditions endpoint configured, the conditions client call
records exactly one outbound call carrying the lat/lon it was given,
whatever the response. -/
theorem client_conditions_trace (cfg : AppSettings) (net : Network) (lat lon : Json)
    (w : String) (hw : cfg.WEATHER_URL = some w) :
    (OpenWeatherClient.get_weather cfg net lat lon).2 = [Call.cond lat lon] := by
  simp only [OpenWeatherClient.get_weather, hw]
  split <;> rfl

/-- C6 as stated is false: a geocoding response with the 2xx status 201
and two matches is not resolved to the first entry's coordinates — the
code raises the upstream error carrying 201, because its success test is
status = 200, not any 2xx. -/
theorem C6_counterexample :
    OpenWeatherClient.get_coordinates goodCfg
        { geocode := fun _ =>
            ⟨201, Json.arr [Json.obj [("lat", Json.num 1), ("lon", Json.num 2)],
                            Json.obj [("lat", Json.num 3), ("lon", Json.num 4)]]⟩
          conditions := fun _ _ => ⟨200, Json.null⟩ }
        "Bogota"
      = (Except.error (Fault.upstream 201 geoUpstreamDetail), [Call.geo "Bogota"])
    ∧ 200 ≤ 201 ∧ 201 < 300 :=
  ⟨rfl, by decide, by decide⟩

/-- C6 amended: on a geocoding response with status exactly 200 (not any
2xx) and one or more entries, get_coordinates returns the lat/lon of the
first entry only — the result is the same for every tail of further
entries — and the subsequent conditions call of the service receives
exactly that first pair, as the recorded trace shows. -/
theorem C6_first_entry_wins (cfg : AppSettings) (net : Network) (q city u w : String)
    (e : Json) (rest : List Json) (la lo : Json)
    (hu : cfg.GEOCODING_URL = some u) (hw : cfg.WEATHER_URL = some w)
    (h1 : net.geocode q = ⟨200, Json.arr (e :: rest)⟩)
    (hla : e.getKey "lat" = Except.ok la) (hlo : e.getKey "lon" = Except.ok lo)
    (h2 : net.geocode (pyStrip city) = ⟨200, Json.arr (e :: rest)⟩) :
    OpenWeatherClient.get_coordinates cfg net q = (Except.ok (la, lo), [Call.geo q])
    ∧ (WeatherService.get_weather ⟨cfg⟩ net city).2
        = [Call.geo (pyStrip city), Call.cond la lo] := by
  have hcoords2 : OpenWeatherClient.get_coordinates cfg net (pyStrip city)
      = (Except.ok (la, lo), [Call.geo (pyStrip city)]) := by
    simp [OpenWeatherClient.get_coordinates, hu, h2, extractCoords,
          Json.indexNat, Json.truthy, hla, hlo]
  refine ⟨?_, ?_⟩
  · simp [OpenWeatherClient.get_coordinates, hu, h1, extractCoords,
          Json.indexNat, Json.truthy, hla, hlo]
  · have htr := client_conditions_trace cfg net la lo w hw
    rcases hW : OpenWeatherClient.get_weather cfg net la lo with ⟨res2, calls2⟩
    rw [hW] at htr
    simp only at htr
    subst htr
    rcases res2 with f2 | wd
    · simp [WeatherService.get_weather, hcoords2, hW]
    · rcases hp : WeatherService.project (pyStrip city) wd with f3 | dto
      · simp [WeatherService.get_weather, hcoords2, hW, hp]
      · simp [WeatherService.get_weather, hcoords2, hW, hp]

/-- A double with two geocoding matches carrying distinct coordinate
pairs; the conditions endpoint answers the example payload. -/
def twoMatchNet : Network :=
  { geocode := fun _ =>
      ⟨200, Json.arr [Json.obj [("lat", Json.num 1), ("lon", Json.num 2)],
                      Json.obj [("lat", Json.num 3), ("lon", Json.num 4)]]⟩
    conditions := fun _ _ => ⟨200, bogotaPayload⟩ }

/-- Closed instance of C6 with two distinct matches: the first pair
(1, 2) is returned and is what the conditions call receives; the second
pair (3, 4) is ignored. -/
theorem C6_witness :
    OpenWeatherClient.get_coordinates goodCfg twoMatchNet "Bogota"
      = (Except.ok (Json.num 1, Json.num 2), [Call.geo "Bogota"])
    ∧ (WeatherService.get_weather ⟨goodCfg⟩ twoMatchNet "Bogota").2
      = [Call.geo "Bogota", Call.cond (Json.num 1) (Json.num 2)] :=
  C6_first_entry_wins goodCfg twoMatchNet "Bogota" "Bogota" _ _
    (Json.obj [("lat", Json.num 1), ("lon", Json.num 2)])
    [Json.obj [("lat", Json.num 3), ("lon", Json.num 4)]]
    (Json.num 1) (Json.num 2)
    rfl rfl rfl rfl rfl rfl

end ApiClima
